import Mathlib

/-!
Shallow embedding of the core of the api-gateway-rust repository:
the token module (crates/auth_core/src/token.rs), the auth handlers
(crates/auth_core/src/handlers.rs), the in-memory contract
implementations (crates/admin_core/src/contract_impl.rs) and the
gateway middleware pipeline (crates/gateway_core/src/middleware.rs).

Modelling conventions:
- Uuid is modelled as Nat, with Uuid.nil = 0 standing for the all-zero
  uuid used for the virtual default admin.
- Time is epoch seconds as Nat; every call to the system clock in the
  source becomes an explicit now parameter.
- Random values produced by the source (the refresh token string from
  generate_refresh_token, the fresh row and user uuids from
  Uuid::new_v4, the argon2 salt) become explicit parameters.
- hash_refresh_token wraps std DefaultHasher, an opaque deterministic
  function with possible collisions; it is threaded through the
  handlers as an uninterpreted parameter hrt.
- The jsonwebtoken crate is modelled by a Jwt record holding the claims
  and the signing secret: decoding under a secret succeeds exactly when
  the secrets agree, after which the claims checks of
  jsonwebtoken::Validation run (exp with the default 60 second leeway,
  then issuer when one is set), in the order of the library.
- Database backed contract operations are modelled over in-memory lists
  of rows; SQL statements become the corresponding pure list operation.
  The handlers discard contract errors on token create (a plain
  underscore binding in the source), so a boolean parameter records
  whether the underlying INSERT failed, in which case the store is
  unchanged.
-/

namespace AGW

/-- Decidable equality for Except, used to evaluate handler results on
concrete inputs. -/
instance {ε α : Type} [DecidableEq ε] [DecidableEq α] : DecidableEq (Except ε α) := fun a b =>
  match a, b with
  | .ok x, .ok y =>
      match decEq x y with
      | isTrue h => isTrue (congrArg Except.ok h)
      | isFalse h => isFalse (fun he => h (Except.ok.inj he))
  | .error x, .error y =>
      match decEq x y with
      | isTrue h => isTrue (congrArg Except.error h)
      | isFalse h => isFalse (fun he => h (Except.error.inj he))
  | .ok _, .error _ => isFalse (fun he => Except.noConfusion he)
  | .error _, .ok _ => isFalse (fun he => Except.noConfusion he)

/-! ## Identifiers and roles (crates/contracts/src/types.rs) -/

/-- Uuid modelled as a natural number. -/
abbrev Uuid := Nat

/-- Uuid.nil, the all-zero uuid used as the virtual default admin id. -/
def Uuid.nil : Uuid := 0

/-- The to_string of a uuid, used for the sub and org_id claim fields. -/
def uuidToString (u : Uuid) : String := toString u

/-- User roles from crates/contracts/src/types.rs. -/
inductive Role
  | superAdmin
  | admin
  | supervisor
  | user
deriving DecidableEq, Repr

/-- Role.as_str, also the Display implementation used by role.to_string(). -/
def Role.asStr : Role → String
  | .superAdmin => "SUPER_ADMIN"
  | .admin => "ADMIN"
  | .supervisor => "SUPERVISOR"
  | .user => "USER"

/-- Contract error taxonomy from crates/contracts/src/types.rs. -/
inductive ContractError
  | notFound
  | alreadyExists
  | internal (detail : String)
  | connection (detail : String)
deriving DecidableEq, Repr

/-- The thiserror Display strings of ContractError. -/
def ContractError.describe : ContractError → String
  | .notFound => "Not found"
  | .alreadyExists => "Already exists"
  | .internal d => "Internal error: " ++ d
  | .connection d => "Connection error: " ++ d

/-! ## Password hashing (crates/auth_core/src/token.rs, argon2) -/

/-- A password hash string as consumed by verify_password. A string
either parses as a PHC encoded argon2 hash, in which case it records
the salt and the password it was derived from, or it is malformed and
PasswordHash::new rejects it. -/
inductive PasswordHashInput
  | phc (salt : String) (password : String)
  | malformed (s : String)
deriving DecidableEq, Repr

/-- hash_password from token.rs: argon2 with a freshly generated random
salt; the salt is an explicit parameter here. The source returns an
anyhow Result whose error case is an argon2 internal failure, which has
no counterpart in the model. -/
def hash_password (password : String) (salt : String) : PasswordHashInput :=
  .phc salt password

/-- verify_password from token.rs. PasswordHash::new is applied to the
hash argument and its error is PROPAGATED with the question mark
operator, so a malformed hash yields an error, not Ok false. On a
well-formed hash, argon2 verification succeeds exactly when the
password matches the one the hash was derived from. -/
def verify_password (password : String) (hash : PasswordHashInput) : Except String Bool :=
  match hash with
  | .malformed s => .error ("invalid password hash: " ++ s)
  | .phc _ stored => .ok (password == stored)

/-! ## Users (crates/contracts/src/types.rs, admin_core contract_impl.rs) -/

/-- UserWithPassword from crates/contracts/src/types.rs. -/
structure UserWithPassword where
  id : Uuid
  organisation_id : Option Uuid
  email : String
  name : String
  password_hash : Option PasswordHashInput
  role : Role
  created_at : Nat
  updated_at : Nat
deriving DecidableEq, Repr

/-- The users table of the storage backend, in row order. -/
abbrev UserDb := List UserWithPassword

/-- UserServiceContract count: SELECT COUNT from users. -/
def userCount (users : UserDb) : Nat := users.length

/-- UserServiceContract find_by_email: SELECT from users WHERE email
matches, fetch_optional. -/
def find_by_email (users : UserDb) (email : String) : Option UserWithPassword :=
  users.find? (fun u => u.email == email)

/-- UserServiceContract find_by_id: SELECT from users WHERE id matches,
fetch_optional. -/
def find_by_id (users : UserDb) (id : Uuid) : Option UserWithPassword :=
  users.find? (fun u => u.id == id)

/-- UserServiceContract create: INSERT a fresh row; a unique constraint
violation on email is mapped to AlreadyExists
(contract_impl.rs maps errors whose text contains unique). -/
def userCreate (users : UserDb) (freshId : Uuid) (now : Nat) (email name : String)
    (password_hash : PasswordHashInput) (organisation_id : Option Uuid) (role : Role) :
    Except ContractError (UserWithPassword × UserDb) :=
  if users.any (fun u => u.email == email) then .error .alreadyExists
  else
    let user : UserWithPassword :=
      { id := freshId, organisation_id := organisation_id, email := email, name := name,
        password_hash := some password_hash, role := role,
        created_at := now, updated_at := now }
    .ok (user, users ++ [user])

/-! ## Refresh token store (admin_core contract_impl.rs) -/

/-- A row of the refresh_tokens table. -/
structure RefreshTokenRow where
  id : Uuid
  user_id : Uuid
  organisation_id : Option Uuid
  token_hash : String
  expires_at : Nat
deriving DecidableEq, Repr

/-- The refresh_tokens table of the storage backend, in row order. -/
abbrev TokenStore := List RefreshTokenRow

/-- RefreshTokenServiceContract find_by_hash: SELECT WHERE token_hash
matches, fetch_optional. The contract projects the row to a
RefreshTokenInfo without the hash column; the handler reads only id,
user_id and expires_at, so the model returns the row. -/
def storeFindByHash (store : TokenStore) (hash : String) : Option RefreshTokenRow :=
  store.find? (fun r => r.token_hash == hash)

/-- RefreshTokenServiceContract create: INSERT a fresh row. -/
def storeCreate (store : TokenStore) (row : RefreshTokenRow) : TokenStore :=
  store ++ [row]

/-- RefreshTokenServiceContract update: UPDATE token_hash and
expires_at WHERE id matches (the rotation statement). -/
def storeUpdate (store : TokenStore) (tokenId : Uuid) (newHash : String) (newExp : Nat) :
    TokenStore :=
  store.map (fun r =>
    if r.id = tokenId then { r with token_hash := newHash, expires_at := newExp } else r)

/-- RefreshTokenServiceContract delete_by_hash: DELETE WHERE token_hash
matches. -/
def storeDeleteByHash (store : TokenStore) (hash : String) : TokenStore :=
  store.filter (fun r => !(r.token_hash == hash))

/-- RefreshTokenServiceContract delete: DELETE WHERE id matches. -/
def storeDelete (store : TokenStore) (tokenId : Uuid) : TokenStore :=
  store.filter (fun r => !(r.id == tokenId))

/-! ## JWT access tokens (crates/auth_core/src/token.rs, jsonwebtoken) -/

/-- The claims the access token carries, as constructed by
generate_access_token in token.rs and mirrored field for field by the
gateway Claims struct in middleware.rs (whose comment requires it to
match the auth ones). The struct printed in auth_core models.rs omits
the role and org_id fields that token.rs initialises. -/
structure Claims where
  sub : String
  iss : String
  exp : Nat
  iat : Nat
  email : String
  name : String
  role : String
  org_id : Option String
deriving DecidableEq, Repr

/-- A signed JWT: the claims plus the symmetric secret used for the
HS256 signature. Signature verification under a candidate secret
succeeds exactly when the secrets coincide. -/
structure Jwt where
  claims : Claims
  secret : String
deriving DecidableEq, Repr

/-- The error cases of jsonwebtoken decode relevant to this code. -/
inductive JwtError
  | invalidSignature
  | expiredSignature
  | invalidIssuer
deriving DecidableEq, Repr

/-- The fields of jsonwebtoken Validation that this code exercises. -/
structure Validation where
  leeway : Nat
  validate_exp : Bool
  iss : Option (List String)
deriving DecidableEq, Repr

/-- jsonwebtoken Validation.new: leeway defaults to 60 seconds (the
documented default, to account for clock skew), exp validation on, no
issuer restriction. -/
def Validation.new : Validation :=
  { leeway := 60, validate_exp := true, iss := none }

/-- jsonwebtoken Validation.default, as used by validate_access_token. -/
def Validation.mkDefault : Validation := Validation.new

/-- Validation.set_issuer. -/
def Validation.set_issuer (v : Validation) (issuers : List String) : Validation :=
  { v with iss := some issuers }

/-- jsonwebtoken decode: verify the signature, then run the claims
checks in library order: exp first (expired when exp < now - leeway,
with the saturating subtraction of unsigned arithmetic), then the
issuer when the validation carries one. -/
def jwtDecode (token : Jwt) (secret : String) (v : Validation) (now : Nat) :
    Except JwtError Claims :=
  if token.secret ≠ secret then .error .invalidSignature
  else if v.validate_exp ∧ token.claims.exp < now - v.leeway then .error .expiredSignature
  else
    match v.iss with
    | some issuers =>
        if token.claims.iss ∈ issuers then .ok token.claims else .error .invalidIssuer
    | none => .ok token.claims

/-- AuthConfig from crates/auth_core/src/config.rs. -/
structure AuthConfig where
  listen_addr : String
  jwt_secret : String
  issuer : String
  token_ttl_seconds : Nat
  default_admin_email : Option String
  default_admin_password : Option String
deriving DecidableEq, Repr

/-- generate_access_token from token.rs: build the claims with
exp = now + token_ttl_seconds, iat = now, the user identity fields, and
sign with the configured secret. The source Result error cases (clock
before epoch, encoding failure) have no counterpart in the model. -/
def generate_access_token (user : UserWithPassword) (config : AuthConfig) (now : Nat) : Jwt :=
  { claims :=
      { sub := uuidToString user.id
        iss := config.issuer
        exp := now + config.token_ttl_seconds
        iat := now
        email := user.email
        name := user.name
        role := user.role.asStr
        org_id := user.organisation_id.map uuidToString }
    secret := config.jwt_secret }

/-- validate_access_token from token.rs: decode with the default
Validation restricted to the configured issuer. -/
def validate_access_token (token : Jwt) (config : AuthConfig) (now : Nat) :
    Except JwtError Claims :=
  jwtDecode token config.jwt_secret (Validation.mkDefault.set_issuer [config.issuer]) now

/-! ## Auth handler request and response shapes (auth_core models.rs) -/

/-- LoginRequest payload. -/
structure LoginRequest where
  email : String
  password : String
deriving DecidableEq, Repr

/-- RefreshRequest payload. -/
structure RefreshRequest where
  refresh_token : String
deriving DecidableEq, Repr

/-- RegisterRequest payload from handlers.rs. -/
structure RegisterRequest where
  email : String
  name : String
  password : String
deriving DecidableEq, Repr

/-- AuthUserInfo: the public user projection in auth responses. -/
structure AuthUserInfo where
  id : Uuid
  email : String
  name : String
deriving DecidableEq, Repr

/-- The From conversion of AuthUserInfo. -/
def AuthUserInfo.ofUser (u : UserWithPassword) : AuthUserInfo :=
  { id := u.id, email := u.email, name := u.name }

/-- AuthResponse returned on successful login, refresh and register. -/
structure AuthResponse where
  access_token : Jwt
  refresh_token : String
  token_type : String
  expires_in : Nat
  user : AuthUserInfo
deriving DecidableEq, Repr

/-- ErrorResponse body. -/
structure ErrorResponse where
  error : String
  message : String
deriving DecidableEq, Repr

/-- An auth handler outcome: an HTTP status together with either an
AuthResponse or an ErrorResponse body. -/
inductive HandlerOut
  | success (status : Nat) (resp : AuthResponse)
  | failure (status : Nat) (err : ErrorResponse)
deriving DecidableEq, Repr

/-- Duration::days(7), the refresh token lifetime in seconds. -/
def refreshTtlSeconds : Nat := 7 * 24 * 60 * 60

/-! ## Auth handlers (crates/auth_core/src/handlers.rs) -/

/-- The login handler. Parameters beyond the request payload make the
effects of the source explicit: hrt is hash_refresh_token, now the
clock, freshRefreshToken the output of generate_refresh_token,
freshRowId the Uuid::new_v4 for the token row, and createFails whether
the token store INSERT fails (its result is discarded by the source, a
plain underscore binding). Returns the response and the store after the
call. -/
def login (hrt : String → String) (config : AuthConfig) (users : UserDb) (store : TokenStore)
    (payload : LoginRequest) (now : Nat) (freshRefreshToken : String) (freshRowId : Uuid)
    (createFails : Bool) : HandlerOut × TokenStore :=
  let user_count := userCount users
  let user : Option UserWithPassword :=
    if user_count = 0 then
      match config.default_admin_email, config.default_admin_password with
      | some default_email, some default_password =>
          if payload.email = default_email ∧ payload.password = default_password then
            some { id := Uuid.nil, organisation_id := none, email := default_email,
                   name := "Default Admin", password_hash := none, role := .superAdmin,
                   created_at := now, updated_at := now }
          else none
      | _, _ => none
    else
      match find_by_email users payload.email with
      | some u =>
          match u.password_hash with
          | some h =>
              match verify_password payload.password h with
              | .ok true => some u
              | _ => none
          | none => none
      | none => none
  match user with
  | none => (.failure 401 ⟨"unauthorized", "Invalid email or password"⟩, store)
  | some user =>
      let access_token := generate_access_token user config now
      let refresh_token := freshRefreshToken
      let refresh_token_hash := hrt refresh_token
      let store1 :=
        if user.id ≠ Uuid.nil then
          if createFails then store
          else storeCreate store
            { id := freshRowId, user_id := user.id, organisation_id := user.organisation_id,
              token_hash := refresh_token_hash, expires_at := now + refreshTtlSeconds }
        else store
      (.success 200
        { access_token := access_token, refresh_token := refresh_token,
          token_type := "Bearer", expires_in := config.token_ttl_seconds,
          user := AuthUserInfo.ofUser user }, store1)

/-- The refresh handler: find the presented token by hash, reject when
absent; when expired, delete the row and reject; otherwise look up the
owning user, issue a new access token and rotate the row in place to a
fresh refresh token hash and expiry. -/
def refresh (hrt : String → String) (config : AuthConfig) (users : UserDb) (store : TokenStore)
    (payload : RefreshRequest) (now : Nat) (freshRefreshToken : String) :
    HandlerOut × TokenStore :=
  let token_hash := hrt payload.refresh_token
  match storeFindByHash store token_hash with
  | none => (.failure 401 ⟨"invalid_token", "Invalid or expired refresh token"⟩, store)
  | some token_info =>
      if token_info.expires_at < now then
        (.failure 401 ⟨"expired_token", "Refresh token has expired"⟩,
          storeDelete store token_info.id)
      else
        match find_by_id users token_info.user_id with
        | none => (.failure 401 ⟨"user_not_found", "User not found"⟩, store)
        | some user =>
            let access_token := generate_access_token user config now
            let new_refresh_token := freshRefreshToken
            let new_hash := hrt new_refresh_token
            let new_expires_at := now + refreshTtlSeconds
            let store1 := storeUpdate store token_info.id new_hash new_expires_at
            (.success 200
              { access_token := access_token, refresh_token := new_refresh_token,
                token_type := "Bearer", expires_in := config.token_ttl_seconds,
                user := AuthUserInfo.ofUser user }, store1)

/-- The logout handler: delete by hash, idempotent. -/
def logout (hrt : String → String) (store : TokenStore) (payload : RefreshRequest) :
    TokenStore :=
  storeDeleteByHash store (hrt payload.refresh_token)

/-- The register handler: hash the password, create the user with role
User and no organisation (BadRequest when the email exists), then issue
both tokens like the login success path; the token store INSERT result
is discarded. Returns the response, the users table and the store after
the call. -/
def register (hrt : String → String) (config : AuthConfig) (users : UserDb) (store : TokenStore)
    (payload : RegisterRequest) (now : Nat) (salt : String) (freshUserId : Uuid)
    (freshRefreshToken : String) (freshRowId : Uuid) (createFails : Bool) :
    HandlerOut × UserDb × TokenStore :=
  let password_hash := hash_password payload.password salt
  match userCreate users freshUserId now payload.email payload.name password_hash none .user with
  | .ok (user, users1) =>
      let access_token := generate_access_token user config now
      let refresh_token := freshRefreshToken
      let refresh_token_hash := hrt refresh_token
      let store1 :=
        if createFails then store
        else storeCreate store
          { id := freshRowId, user_id := user.id, organisation_id := user.organisation_id,
            token_hash := refresh_token_hash, expires_at := now + refreshTtlSeconds }
      (.success 201
        { access_token := access_token, refresh_token := refresh_token,
          token_type := "Bearer", expires_in := config.token_ttl_seconds,
          user := AuthUserInfo.ofUser user }, users1, store1)
  | .error .alreadyExists =>
      (.failure 400 ⟨"registration_failed", "Email already registered"⟩, users, store)
  | .error e =>
      (.failure 400 ⟨"registration_failed", "Failed to create user: " ++ e.describe⟩,
        users, store)

/-! ## Gateway middleware (crates/gateway_core/src/middleware.rs) -/

/-- A header value on the gateway wire: either an arbitrary string, or
the string Bearer followed by the compact serialization of a signed
JWT (the only shape the strip and decode of the Auth middleware
accepts). -/
inductive HeaderValue
  | raw (s : String)
  | bearerJwt (t : Jwt)
deriving DecidableEq, Repr

/-- Emptiness of a header value string, as tested by the api key check. -/
def HeaderValue.isEmptyVal : HeaderValue → Bool
  | .raw s => s == ""
  | .bearerJwt _ => false

/-- The gateway Request type from gateway_core types.rs. -/
structure GwRequest where
  path : String
  headers : List (String × HeaderValue)
deriving DecidableEq, Repr

/-- The gateway Response type from gateway_core types.rs. -/
structure GwResponse where
  status : Nat
  body : String
deriving DecidableEq, Repr

/-- Response.unauthorized. -/
def GwResponse.unauthorized (body : String) : GwResponse := ⟨401, body⟩

/-- starts_with on request paths, expressed over the character lists of
the strings so that it evaluates by kernel reduction. -/
def strStartsWith (s pre : String) : Bool := pre.data.isPrefixOf s.data

/-- eq_ignore_ascii_case on header names, expressed over the character
lists of the strings. -/
def eqIgnoreAsciiCase (a b : String) : Bool :=
  a.data.map Char.toLower == b.data.map Char.toLower

/-- The Validation built by the gateway Auth middleware:
Validation::new(HS256) with validate_exp set to true. No issuer is ever
set on it. -/
def gatewayValidation : Validation :=
  { Validation.new with validate_exp := true }

/-- The identity headers pushed by the Auth middleware on a successful
JWT decode, in push order. -/
def identityHeaders (claims : Claims) : List (String × HeaderValue) :=
  [("x-user-id", .raw claims.sub), ("x-user-email", .raw claims.email),
   ("x-user-name", .raw claims.name), ("x-user-role", .raw claims.role)]
  ++ (match claims.org_id with
      | some o => [("x-organisation-id", HeaderValue.raw o)]
      | none => [])
  ++ [("x-auth", .raw "jwt")]

/-- The Auth middleware process. Paths under /auth bypass every check.
Otherwise: find the first authorization header (case insensitive); when
it is a bearer JWT that decodes under the gateway secret (exp checked,
issuer NOT restricted), push the identity headers and continue; when
decoding fails or there is no bearer token, fall back to requiring some
non-empty x-api-key header, rejecting with 401 when absent. The secret
parameter stands for the process-wide OnceLock value. -/
def authProcess (secret : String) (now : Nat) (req : GwRequest) :
    Except GwResponse GwRequest :=
  if strStartsWith req.path "/auth" then .ok req
  else
    let auth_header :=
      (req.headers.find? (fun kv => eqIgnoreAsciiCase kv.fst "authorization")).map Prod.snd
    let afterJwt : Option GwRequest :=
      match auth_header with
      | some (.bearerJwt t) =>
          match jwtDecode t secret gatewayValidation now with
          | .ok claims => some { req with headers := req.headers ++ identityHeaders claims }
          | .error _ => none
      | _ => none
    match afterJwt with
    | some r => .ok r
    | none =>
        let has_key := req.headers.any
          (fun kv => eqIgnoreAsciiCase kv.fst "x-api-key" && !kv.snd.isEmptyVal)
        if has_key then
          .ok { req with headers := req.headers ++ [("x-auth", .raw "api-key")] }
        else
          .error (GwResponse.unauthorized "missing authentication")

/-- The Logging middleware: prints and never rejects. -/
def loggingProcess : GwRequest → Except GwResponse GwRequest := fun req => .ok req

/-- The HeaderInjection middleware: stamps the gateway identity header. -/
def headerInjectionProcess : GwRequest → Except GwResponse GwRequest := fun req =>
  .ok { req with headers := req.headers ++ [("x-gateway", .raw "apisentinel")] }

/-- A middleware step as a function, the trait object of the source. -/
abbrev GwMiddleware := GwRequest → Except GwResponse GwRequest

/-- default_pipeline: Logging, Auth, HeaderInjection in order. -/
def default_pipeline (secret : String) (now : Nat) : List GwMiddleware :=
  [loggingProcess, authProcess secret now, headerInjectionProcess]

/-- apply from middleware.rs: thread the request through the steps,
returning the first rejection unchanged and running no later step. -/
def applyPipeline : List GwMiddleware → GwRequest → Except GwResponse GwRequest
  | [], req => .ok req
  | step :: rest, req =>
      match step req with
      | .ok r => applyPipeline rest r
      | .error e => .error e

/-! ## Theorems -/

/-- C2: for every user u and config cfg, validating a token produced by
generate_access_token at a time before its expiry succeeds and returns
exactly the identity claims of u: subject u.id, email, name, role,
organisation id when present, and issuer cfg.issuer. -/
theorem C2_access_token_roundtrip (u : UserWithPassword) (cfg : AuthConfig) (t now : Nat)
    (h : now < (generate_access_token u cfg t).claims.exp) :
    validate_access_token (generate_access_token u cfg t) cfg now =
      .ok { sub := uuidToString u.id, iss := cfg.issuer, exp := t + cfg.token_ttl_seconds,
            iat := t, email := u.email, name := u.name, role := u.role.asStr,
            org_id := u.organisation_id.map uuidToString } := by
  have h2 : ¬ (t + cfg.token_ttl_seconds < now - 60) := by
    simp only [generate_access_token] at h
    omega
  simp [validate_access_token, jwtDecode, generate_access_token, Validation.mkDefault,
    Validation.new, Validation.set_issuer, h2]

/-- Witness for C2 at a concrete user, config and times. -/
theorem C2_access_token_roundtrip_witness :
    validate_access_token
        (generate_access_token
          { id := 7, organisation_id := some 3, email := "e@x", name := "E",
            password_hash := none, role := .admin, created_at := 0, updated_at := 0 }
          { listen_addr := "a", jwt_secret := "s", issuer := "apisentinel",
            token_ttl_seconds := 300, default_admin_email := none,
            default_admin_password := none } 100)
        { listen_addr := "a", jwt_secret := "s", issuer := "apisentinel",
          token_ttl_seconds := 300, default_admin_email := none,
          default_admin_password := none } 200 =
      .ok { sub := uuidToString 7, iss := "apisentinel", exp := 100 + 300, iat := 100,
            email := "e@x", name := "E", role := Role.admin.asStr,
            org_id := (some 3).map uuidToString } :=
  C2_access_token_roundtrip
    { id := 7, organisation_id := some 3, email := "e@x", name := "E",
      password_hash := none, role := .admin, created_at := 0, updated_at := 0 }
    { listen_addr := "a", jwt_secret := "s", issuer := "apisentinel",
      token_ttl_seconds := 300, default_admin_email := none,
      default_admin_password := none } 100 200 (by decide)

/-- C5 counterexample: on a malformed hash string, verify_password
returns an error (PasswordHash::new fails and the question mark
operator propagates it); it does not return the boolean false that the
claim promises. -/
theorem C5_counterexample :
    verify_password "pw" (.malformed "xyz") = .error "invalid password hash: xyz" ∧
    verify_password "pw" (.malformed "xyz") ≠ .ok false := by
  exact ⟨rfl, by decide⟩

/-- C5 amended: verify_password returns Ok of the comparison result on
well-formed hashes and returns an error (rather than Ok false) on
malformed hash input; the login handler fails closed at the call site,
treating the error as a failed authentication and answering 401. -/
theorem C5_verify_password_fails_closed (password s email : String)
    (hrt : String → String) (config : AuthConfig) (users : UserDb) (store : TokenStore)
    (u : UserWithPassword) (now : Nat) (fresh : String) (fid : Uuid) (cf : Bool)
    (hne : users ≠ [])
    (hfind : find_by_email users email = some u)
    (hhash : u.password_hash = some (PasswordHashInput.malformed s)) :
    (∀ salt stored, verify_password password (.phc salt stored) = .ok (password == stored)) ∧
    verify_password password (.malformed s) = .error ("invalid password hash: " ++ s) ∧
    (login hrt config users store ⟨email, password⟩ now fresh fid cf).fst
      = .failure 401 ⟨"unauthorized", "Invalid email or password"⟩ := by
  refine ⟨fun _ _ => rfl, rfl, ?_⟩
  have hcount : userCount users ≠ 0 := by
    simpa [userCount, List.length_eq_zero] using hne
  simp [login, hcount, hfind, hhash, verify_password]

/-- Witness for C5 amended at a concrete user directory. -/
theorem C5_verify_password_fails_closed_witness :
    (∀ salt stored, verify_password "pw" (.phc salt stored) = .ok ("pw" == stored)) ∧
    verify_password "pw" (.malformed "bad") = .error ("invalid password hash: " ++ "bad") ∧
    (login (fun s => s)
        { listen_addr := "a", jwt_secret := "s", issuer := "i", token_ttl_seconds := 300,
          default_admin_email := none, default_admin_password := none }
        [{ id := 4, organisation_id := none, email := "e@x", name := "E",
           password_hash := some (PasswordHashInput.malformed "bad"), role := .user,
           created_at := 0, updated_at := 0 }]
        [] ⟨"e@x", "pw"⟩ 0 "rt" 9 false).fst
      = .failure 401 ⟨"unauthorized", "Invalid email or password"⟩ :=
  C5_verify_password_fails_closed "pw" "bad" "e@x" (fun s => s)
    { listen_addr := "a", jwt_secret := "s", issuer := "i", token_ttl_seconds := 300,
      default_admin_email := none, default_admin_password := none }
    [{ id := 4, organisation_id := none, email := "e@x", name := "E",
       password_hash := some (PasswordHashInput.malformed "bad"), role := .user,
       created_at := 0, updated_at := 0 }]
    [] { id := 4, organisation_id := none, email := "e@x", name := "E",
         password_hash := some (PasswordHashInput.malformed "bad"), role := .user,
         created_at := 0, updated_at := 0 }
    0 "rt" 9 false (by decide) (by decide) (by decide)

/-- C7 counterexample: with TTL 300 a token generated at time 1000
carries exp = 1300, yet validation at now = 1301 = exp + 1 still
SUCCEEDS, because the default jsonwebtoken Validation applies a 60
second leeway to the expiry check; the claim that validation fails with
an expiry error at every now at least exp + 1 is false. -/
theorem C7_counterexample :
    (generate_access_token
        { id := 7, organisation_id := none, email := "a@x", name := "A",
          password_hash := none, role := .user, created_at := 0, updated_at := 0 }
        { listen_addr := "a", jwt_secret := "s", issuer := "apisentinel",
          token_ttl_seconds := 300, default_admin_email := none,
          default_admin_password := none } 1000).claims.exp = 1300 ∧
    validate_access_token
        (generate_access_token
          { id := 7, organisation_id := none, email := "a@x", name := "A",
            password_hash := none, role := .user, created_at := 0, updated_at := 0 }
          { listen_addr := "a", jwt_secret := "s", issuer := "apisentinel",
            token_ttl_seconds := 300, default_admin_email := none,
            default_admin_password := none } 1000)
        { listen_addr := "a", jwt_secret := "s", issuer := "apisentinel",
          token_ttl_seconds := 300, default_admin_email := none,
          default_admin_password := none } 1301 =
      .ok (generate_access_token
          { id := 7, organisation_id := none, email := "a@x", name := "A",
            password_hash := none, role := .user, created_at := 0, updated_at := 0 }
          { listen_addr := "a", jwt_secret := "s", issuer := "apisentinel",
            token_ttl_seconds := 300, default_admin_email := none,
            default_admin_password := none } 1000).claims := by
  exact ⟨rfl, by decide⟩

/-- C7 amended: a token generated at time t carries
exp = t + token_ttl_seconds, and validation fails with an expiry error
at every time past the 60 second default leeway of the jsonwebtoken
Validation, that is at every now at least exp + 61. -/
theorem C7_expiry_after_leeway (u : UserWithPassword) (cfg : AuthConfig) (t now : Nat)
    (h : (generate_access_token u cfg t).claims.exp + 61 ≤ now) :
    (generate_access_token u cfg t).claims.exp = t + cfg.token_ttl_seconds ∧
    validate_access_token (generate_access_token u cfg t) cfg now =
      .error .expiredSignature := by
  refine ⟨rfl, ?_⟩
  have h2 : t + cfg.token_ttl_seconds < now - 60 := by
    simp only [generate_access_token] at h
    omega
  simp [validate_access_token, jwtDecode, generate_access_token, Validation.mkDefault,
    Validation.new, Validation.set_issuer, h2]

/-- Witness for C7 amended: the same token as in the counterexample is
rejected as expired at now = exp + 61 = 1361. -/
theorem C7_expiry_after_leeway_witness :
    (generate_access_token
        { id := 7, organisation_id := none, email := "a@x", name := "A",
          password_hash := none, role := .user, created_at := 0, updated_at := 0 }
        { listen_addr := "a", jwt_secret := "s", issuer := "apisentinel",
          token_ttl_seconds := 300, default_admin_email := none,
          default_admin_password := none } 1000).claims.exp = 1000 + 300 ∧
    validate_access_token
        (generate_access_token
          { id := 7, organisation_id := none, email := "a@x", name := "A",
            password_hash := none, role := .user, created_at := 0, updated_at := 0 }
          { listen_addr := "a", jwt_secret := "s", issuer := "apisentinel",
            token_ttl_seconds := 300, default_admin_email := none,
            default_admin_password := none } 1000)
        { listen_addr := "a", jwt_secret := "s", issuer := "apisentinel",
          token_ttl_seconds := 300, default_admin_email := none,
          default_admin_password := none } 1361 =
      .error .expiredSignature :=
  C7_expiry_after_leeway
    { id := 7, organisation_id := none, email := "a@x", name := "A",
      password_hash := none, role := .user, created_at := 0, updated_at := 0 }
    { listen_addr := "a", jwt_secret := "s", issuer := "apisentinel",
      token_ttl_seconds := 300, default_admin_email := none,
      default_admin_password := none } 1000 1361 (by decide)

/-- A request none of whose headers is a non-empty x-api-key header
fails the api key fallback test of the Auth middleware. -/
theorem any_api_key_eq_false (headers : List (String × HeaderValue))
    (h : ∀ n v, (n, v) ∈ headers → eqIgnoreAsciiCase n "x-api-key" = true → v.isEmptyVal = true) :
    headers.any (fun kv => eqIgnoreAsciiCase kv.fst "x-api-key" && !kv.snd.isEmptyVal)
      = false := by
  rw [List.any_eq_false]
  rintro ⟨n, v⟩ hm hc
  rw [Bool.and_eq_true] at hc
  have hv := h n v hm hc.1
  rw [hv] at hc
  exact absurd hc.2 (by decide)

/-- C4 counterexample: a token signed with the gateway secret but
carrying the issuer evil, different from the configured issuer
apisentinel of the token module (validate_access_token rejects it with
an issuer error), is nevertheless accepted by the gateway Auth
middleware as JWT authentication, which injects the identity headers
and the x-auth jwt marker: the gateway never restricts the issuer on
its Validation. -/
theorem C4_counterexample :
    validate_access_token
        { claims := { sub := "7", iss := "evil", exp := 1000, iat := 0, email := "a@x",
                      name := "A", role := "USER", org_id := none }, secret := "s" }
        { listen_addr := "a", jwt_secret := "s", issuer := "apisentinel",
          token_ttl_seconds := 300, default_admin_email := none,
          default_admin_password := none } 100 = .error .invalidIssuer ∧
    authProcess "s" 100
        { path := "/admin/users",
          headers := [("Authorization",
            .bearerJwt { claims := { sub := "7", iss := "evil", exp := 1000, iat := 0,
                                     email := "a@x", name := "A", role := "USER",
                                     org_id := none }, secret := "s" })] } =
      .ok { path := "/admin/users",
            headers := [("Authorization",
              .bearerJwt { claims := { sub := "7", iss := "evil", exp := 1000, iat := 0,
                                       email := "a@x", name := "A", role := "USER",
                                       org_id := none }, secret := "s" }),
              ("x-user-id", .raw "7"), ("x-user-email", .raw "a@x"),
              ("x-user-name", .raw "A"), ("x-user-role", .raw "USER"),
              ("x-auth", .raw "jwt")] } := by
  exact ⟨by decide, by decide⟩

/-- C4 amended: on routes outside the auth mount, the gateway Auth
middleware accepts a bearer token and injects the identity headers
exactly when the token verifies under the shared signing secret and its
expiry (with the 60 second library leeway); the issuer claim is NOT
checked, so a token signed with the correct secret but carrying any
other issuer is accepted as JWT authentication all the same. The first
part holds with no hypothesis at all on t.claims.iss; the second part
shows a bearer token failing signature verification is not accepted,
and with no api key the request is rejected. -/
theorem C4_gateway_issuer_not_checked (secret : String) (now : Nat) (req : GwRequest)
    (nm : String) (t : Jwt)
    (hpath : strStartsWith req.path "/auth" = false)
    (hlook : req.headers.find? (fun kv => eqIgnoreAsciiCase kv.fst "authorization")
        = some (nm, .bearerJwt t))
    (hexp : ¬ t.claims.exp < now - 60) :
    (t.secret = secret →
      authProcess secret now req =
        .ok { req with headers := req.headers ++ identityHeaders t.claims }) ∧
    (t.secret ≠ secret →
      (∀ n v, (n, v) ∈ req.headers →
        eqIgnoreAsciiCase n "x-api-key" = true → v.isEmptyVal = true) →
      authProcess secret now req =
        .error (GwResponse.unauthorized "missing authentication")) := by
  constructor
  · intro hsec
    simp [authProcess, hpath, hlook, jwtDecode, gatewayValidation, Validation.new, hsec, hexp]
  · intro hsec hnokey
    have hkey := any_api_key_eq_false req.headers hnokey
    simp [authProcess, hpath, hlook, jwtDecode, gatewayValidation, Validation.new, hsec, hkey]

/-- Witness for C4 amended: both parts at concrete requests, the first
with issuer evil and the gateway secret, the second with a token signed
under a different secret. -/
theorem C4_gateway_issuer_not_checked_witness :
    authProcess "s" 100
        { path := "/x",
          headers := [("authorization",
            .bearerJwt { claims := { sub := "1", iss := "evil", exp := 1000, iat := 0,
                                     email := "e", name := "n", role := "USER",
                                     org_id := none }, secret := "s" })] } =
      .ok { path := "/x",
            headers := [("authorization",
              .bearerJwt { claims := { sub := "1", iss := "evil", exp := 1000, iat := 0,
                                       email := "e", name := "n", role := "USER",
                                       org_id := none }, secret := "s" })] ++
              identityHeaders { sub := "1", iss := "evil", exp := 1000, iat := 0,
                                email := "e", name := "n", role := "USER",
                                org_id := none } } ∧
    authProcess "s" 100
        { path := "/x",
          headers := [("authorization",
            .bearerJwt { claims := { sub := "1", iss := "evil", exp := 1000, iat := 0,
                                     email := "e", name := "n", role := "USER",
                                     org_id := none }, secret := "other" })] } =
      .error (GwResponse.unauthorized "missing authentication") := by
  constructor
  · exact (C4_gateway_issuer_not_checked "s" 100
      { path := "/x",
        headers := [("authorization",
          .bearerJwt { claims := { sub := "1", iss := "evil", exp := 1000, iat := 0,
                                   email := "e", name := "n", role := "USER",
                                   org_id := none }, secret := "s" })] }
      "authorization"
      { claims := { sub := "1", iss := "evil", exp := 1000, iat := 0,
                    email := "e", name := "n", role := "USER", org_id := none },
        secret := "s" }
      (by decide) (by decide) (by decide)).1 rfl
  · exact (C4_gateway_issuer_not_checked "s" 100
      { path := "/x",
        headers := [("authorization",
          .bearerJwt { claims := { sub := "1", iss := "evil", exp := 1000, iat := 0,
                                   email := "e", name := "n", role := "USER",
                                   org_id := none }, secret := "other" })] }
      "authorization"
      { claims := { sub := "1", iss := "evil", exp := 1000, iat := 0,
                    email := "e", name := "n", role := "USER", org_id := none },
        secret := "other" }
      (by decide) (by decide) (by decide)).2 (by decide)
      (by
        intro n v hm hk
        simp only [List.mem_singleton, Prod.mk.injEq] at hm
        obtain ⟨rfl, rfl⟩ := hm
        exact absurd hk (by decide))

/-- C6: requests whose path begins with the auth mount bypass
authentication entirely: the pipeline passes them through, only
stamping the gateway header. Requests to any other route carrying
neither a decodable bearer token nor a non-empty x-api-key header are
rejected 401 by the Auth middleware, and the rejection short-circuits
the chain: whatever the remaining steps after Auth are, the pipeline
output is that same 401 response and no later step runs on the
request. -/
theorem C6_pipeline_bypass_and_shortcircuit (secret : String) (now : Nat)
    (req req2 : GwRequest)
    (hbypass : strStartsWith req.path "/auth" = true)
    (hpath2 : strStartsWith req2.path "/auth" = false)
    (hbearer : ∀ n t, (n, HeaderValue.bearerJwt t) ∈ req2.headers →
        ∃ e, jwtDecode t secret gatewayValidation now = .error e)
    (hnokey : ∀ n v, (n, v) ∈ req2.headers →
        eqIgnoreAsciiCase n "x-api-key" = true → v.isEmptyVal = true) :
    applyPipeline (default_pipeline secret now) req =
      .ok { req with headers := req.headers ++ [("x-gateway", .raw "apisentinel")] } ∧
    authProcess secret now req2 = .error (GwResponse.unauthorized "missing authentication") ∧
    ∀ rest, applyPipeline (loggingProcess :: authProcess secret now :: rest) req2 =
      .error (GwResponse.unauthorized "missing authentication") := by
  have hkey := any_api_key_eq_false req2.headers hnokey
  have hauth : authProcess secret now req2 =
      .error (GwResponse.unauthorized "missing authentication") := by
    cases hfind : req2.headers.find? (fun kv => eqIgnoreAsciiCase kv.fst "authorization") with
    | none => simp [authProcess, hpath2, hfind, hkey]
    | some kv =>
        obtain ⟨n, v⟩ := kv
        cases v with
        | raw s => simp [authProcess, hpath2, hfind, hkey]
        | bearerJwt t =>
            obtain ⟨e, he⟩ := hbearer n t (List.mem_of_find?_eq_some hfind)
            simp [authProcess, hpath2, hfind, he, hkey]
  refine ⟨?_, hauth, ?_⟩
  · simp [applyPipeline, default_pipeline, loggingProcess, authProcess, hbypass,
      headerInjectionProcess]
  · intro rest
    simp [applyPipeline, loggingProcess, hauth]

/-- Witness for C6: the login route with no headers at all reaches the
end of the pipeline, while an admin route with no headers is rejected
401 before the header injection step. -/
theorem C6_pipeline_bypass_and_shortcircuit_witness :
    applyPipeline (default_pipeline "s" 0) { path := "/auth/login", headers := [] } =
      .ok { path := "/auth/login", headers := [("x-gateway", .raw "apisentinel")] } ∧
    authProcess "s" 0 { path := "/admin/x", headers := [] } =
      .error (GwResponse.unauthorized "missing authentication") ∧
    applyPipeline (loggingProcess :: authProcess "s" 0 :: [headerInjectionProcess])
        { path := "/admin/x", headers := [] } =
      .error (GwResponse.unauthorized "missing authentication") := by
  have h := C6_pipeline_bypass_and_shortcircuit "s" 0
    { path := "/auth/login", headers := [] } { path := "/admin/x", headers := [] }
    (by decide) (by decide)
    (by intro n t hm; exact absurd hm (List.not_mem_nil _))
    (by intro n v hm; exact absurd hm (List.not_mem_nil _))
  exact ⟨h.1, h.2.1, h.2.2 [headerInjectionProcess]⟩

/-- C3 counterexample: the claim says the default-admin credentials are
rejected Unauthorized once any real user exists, but when a real user
has registered exactly the default-admin email and password, login with
those credentials succeeds through the normal database path: here one
real user exists and login with the configured default-admin
credentials returns 200, not 401. -/
theorem C3_counterexample :
    (login (fun s => s)
        { listen_addr := "a", jwt_secret := "s", issuer := "i", token_ttl_seconds := 300,
          default_admin_email := some "admin@x", default_admin_password := some "pw" }
        [{ id := 7, organisation_id := none, email := "admin@x", name := "A",
           password_hash := some (.phc "salt" "pw"), role := .admin,
           created_at := 0, updated_at := 0 }]
        [] ⟨"admin@x", "pw"⟩ 0 "rt" 9 false).fst
      ≠ .failure 401 ⟨"unauthorized", "Invalid email or password"⟩ ∧
    (login (fun s => s)
        { listen_addr := "a", jwt_secret := "s", issuer := "i", token_ttl_seconds := 300,
          default_admin_email := some "admin@x", default_admin_password := some "pw" }
        [{ id := 7, organisation_id := none, email := "admin@x", name := "A",
           password_hash := some (.phc "salt" "pw"), role := .admin,
           created_at := 0, updated_at := 0 }]
        [] ⟨"admin@x", "pw"⟩ 0 "rt" 9 false).fst =
      .success 200
        { access_token := generate_access_token
            { id := 7, organisation_id := none, email := "admin@x", name := "A",
              password_hash := some (.phc "salt" "pw"), role := .admin,
              created_at := 0, updated_at := 0 }
            { listen_addr := "a", jwt_secret := "s", issuer := "i", token_ttl_seconds := 300,
              default_admin_email := some "admin@x", default_admin_password := some "pw" } 0,
          refresh_token := "rt", token_type := "Bearer", expires_in := 300,
          user := { id := 7, email := "admin@x", name := "A" } } := by
  exact ⟨by decide, by decide⟩

/-- C3 amended: with the default-admin credentials configured and
submitted, login succeeds through the virtual SuperAdmin path (nil
user id, nothing persisted, store untouched) exactly when the user
directory is empty; once any real user exists the virtual path is
disabled and the credentials are rejected Unauthorized, unless some
stored real user with that email independently verifies against the
submitted password, in which case login succeeds as that real user. -/
theorem C3_default_admin_bootstrap (hrt : String → String) (config : AuthConfig)
    (users : UserDb) (store : TokenStore) (de dp : String) (now : Nat)
    (fresh : String) (fid : Uuid) (cf : Bool)
    (he : config.default_admin_email = some de)
    (hp : config.default_admin_password = some dp) :
    (users = [] →
      login hrt config users store ⟨de, dp⟩ now fresh fid cf =
        (.success 200
          { access_token := generate_access_token
              { id := Uuid.nil, organisation_id := none, email := de,
                name := "Default Admin", password_hash := none, role := .superAdmin,
                created_at := now, updated_at := now } config now,
            refresh_token := fresh, token_type := "Bearer",
            expires_in := config.token_ttl_seconds,
            user := { id := Uuid.nil, email := de, name := "Default Admin" } }, store)) ∧
    (users ≠ [] →
      (∀ u ∈ users, u.email = de →
        ∀ h, u.password_hash = some h → verify_password dp h ≠ .ok true) →
      (login hrt config users store ⟨de, dp⟩ now fresh fid cf).fst =
        .failure 401 ⟨"unauthorized", "Invalid email or password"⟩) := by
  constructor
  · rintro rfl
    simp [login, userCount, he, hp, Uuid.nil, AuthUserInfo.ofUser]
  · intro hne hnomatch
    have hcount : userCount users ≠ 0 := by
      intro h0
      rw [userCount, List.length_eq_zero] at h0
      exact hne h0
    cases hfind : find_by_email users de with
    | none => simp [login, hcount, hfind]
    | some u =>
        have hfind' : users.find? (fun v => v.email == de) = some u := hfind
        have hmem : u ∈ users := List.mem_of_find?_eq_some hfind'
        have hemail : u.email = de := by
          have := List.find?_some hfind'
          simpa [beq_iff_eq] using this
        cases hhash : u.password_hash with
        | none => simp [login, hcount, hfind, hhash]
        | some h =>
            have hv := hnomatch u hmem hemail h hhash
            cases hverif : verify_password dp h with
            | error e => simp [login, hcount, hfind, hhash, hverif]
            | ok b =>
                cases b with
                | false => simp [login, hcount, hfind, hhash, hverif]
                | true => exact absurd hverif hv

/-- Witness for C3 amended: on an empty directory the virtual
SuperAdmin login succeeds with nothing persisted; with one real user of
a different email the same credentials are rejected. -/
theorem C3_default_admin_bootstrap_witness :
    login (fun s => s)
        { listen_addr := "a", jwt_secret := "s", issuer := "i", token_ttl_seconds := 300,
          default_admin_email := some "admin@x", default_admin_password := some "pw" }
        [] [] ⟨"admin@x", "pw"⟩ 5 "rt" 9 false =
      (.success 200
        { access_token := generate_access_token
            { id := Uuid.nil, organisation_id := none, email := "admin@x",
              name := "Default Admin", password_hash := none, role := .superAdmin,
              created_at := 5, updated_at := 5 }
            { listen_addr := "a", jwt_secret := "s", issuer := "i", token_ttl_seconds := 300,
              default_admin_email := some "admin@x", default_admin_password := some "pw" } 5,
          refresh_token := "rt", token_type := "Bearer", expires_in := 300,
          user := { id := Uuid.nil, email := "admin@x", name := "Default Admin" } }, []) ∧
    (login (fun s => s)
        { listen_addr := "a", jwt_secret := "s", issuer := "i", token_ttl_seconds := 300,
          default_admin_email := some "admin@x", default_admin_password := some "pw" }
        [{ id := 7, organisation_id := none, email := "other@x", name := "B",
           password_hash := some (.phc "salt" "zz"), role := .user,
           created_at := 0, updated_at := 0 }]
        [] ⟨"admin@x", "pw"⟩ 5 "rt" 9 false).fst =
      .failure 401 ⟨"unauthorized", "Invalid email or password"⟩ := by
  constructor
  · exact (C3_default_admin_bootstrap (fun s => s)
      { listen_addr := "a", jwt_secret := "s", issuer := "i", token_ttl_seconds := 300,
        default_admin_email := some "admin@x", default_admin_password := some "pw" }
      [] [] "admin@x" "pw" 5 "rt" 9 false rfl rfl).1 rfl
  · exact (C3_default_admin_bootstrap (fun s => s)
      { listen_addr := "a", jwt_secret := "s", issuer := "i", token_ttl_seconds := 300,
        default_admin_email := some "admin@x", default_admin_password := some "pw" }
      [{ id := 7, organisation_id := none, email := "other@x", name := "B",
         password_hash := some (.phc "salt" "zz"), role := .user,
         created_at := 0, updated_at := 0 }]
      [] "admin@x" "pw" 5 "rt" 9 false rfl rfl).2 (by decide)
      (by
        intro u hu hemail
        simp only [List.mem_singleton] at hu
        subst hu
        exact absurd hemail (by decide))

/-- C9: a login with an email matching no user and a login with an
existing email but a wrong password or a password-less account produce
the same 401 response with the same body, revealing nothing about which
factor failed. -/
theorem C9_uniform_login_failure (hrt : String → String) (config : AuthConfig)
    (users : UserDb) (store : TokenStore) (p1 p2 : LoginRequest) (u : UserWithPassword)
    (now1 now2 : Nat) (f1 f2 : String) (i1 i2 : Uuid) (c1 c2 : Bool)
    (h1 : ∀ v ∈ users, v.email ≠ p1.email)
    (hfind : find_by_email users p2.email = some u)
    (hbad : u.password_hash = none ∨
      ∃ h, u.password_hash = some h ∧ verify_password p2.password h ≠ .ok true) :
    (login hrt config users store p1 now1 f1 i1 c1).fst =
      .failure 401 ⟨"unauthorized", "Invalid email or password"⟩ ∧
    (login hrt config users store p2 now2 f2 i2 c2).fst =
      .failure 401 ⟨"unauthorized", "Invalid email or password"⟩ ∧
    (login hrt config users store p1 now1 f1 i1 c1).fst =
      (login hrt config users store p2 now2 f2 i2 c2).fst := by
  have hfind' : users.find? (fun v => v.email == p2.email) = some u := hfind
  have hmem : u ∈ users := List.mem_of_find?_eq_some hfind'
  have hcount : userCount users ≠ 0 := by
    intro h0
    rw [userCount, List.length_eq_zero] at h0
    subst h0
    exact absurd hmem (List.not_mem_nil u)
  have hfindnone : find_by_email users p1.email = none := by
    simp only [find_by_email, List.find?_eq_none]
    intro v hv
    simpa [beq_iff_eq] using h1 v hv
  have hout1 : (login hrt config users store p1 now1 f1 i1 c1).fst =
      .failure 401 ⟨"unauthorized", "Invalid email or password"⟩ := by
    simp [login, hcount, hfindnone]
  have hout2 : (login hrt config users store p2 now2 f2 i2 c2).fst =
      .failure 401 ⟨"unauthorized", "Invalid email or password"⟩ := by
    rcases hbad with hnone | ⟨h, hh, hv⟩
    · simp [login, hcount, hfind, hnone]
    · cases hverif : verify_password p2.password h with
      | error e => simp [login, hcount, hfind, hh, hverif]
      | ok b =>
          cases b with
          | false => simp [login, hcount, hfind, hh, hverif]
          | true => exact absurd hverif hv
  exact ⟨hout1, hout2, by rw [hout1, hout2]⟩

/-- Witness for C9: one user directory, an unknown email and a wrong
password against the known email produce identical 401 bodies. -/
theorem C9_uniform_login_failure_witness :
    (login (fun s => s)
        { listen_addr := "a", jwt_secret := "s", issuer := "i", token_ttl_seconds := 300,
          default_admin_email := none, default_admin_password := none }
        [{ id := 4, organisation_id := none, email := "b@x", name := "B",
           password_hash := some (.phc "salt" "right"), role := .user,
           created_at := 0, updated_at := 0 }]
        [] ⟨"a@x", "pw"⟩ 1 "r1" 8 false).fst =
      .failure 401 ⟨"unauthorized", "Invalid email or password"⟩ ∧
    (login (fun s => s)
        { listen_addr := "a", jwt_secret := "s", issuer := "i", token_ttl_seconds := 300,
          default_admin_email := none, default_admin_password := none }
        [{ id := 4, organisation_id := none, email := "b@x", name := "B",
           password_hash := some (.phc "salt" "right"), role := .user,
           created_at := 0, updated_at := 0 }]
        [] ⟨"b@x", "wrong"⟩ 2 "r2" 9 false).fst =
      .failure 401 ⟨"unauthorized", "Invalid email or password"⟩ ∧
    (login (fun s => s)
        { listen_addr := "a", jwt_secret := "s", issuer := "i", token_ttl_seconds := 300,
          default_admin_email := none, default_admin_password := none }
        [{ id := 4, organisation_id := none, email := "b@x", name := "B",
           password_hash := some (.phc "salt" "right"), role := .user,
           created_at := 0, updated_at := 0 }]
        [] ⟨"a@x", "pw"⟩ 1 "r1" 8 false).fst =
    (login (fun s => s)
        { listen_addr := "a", jwt_secret := "s", issuer := "i", token_ttl_seconds := 300,
          default_admin_email := none, default_admin_password := none }
        [{ id := 4, organisation_id := none, email := "b@x", name := "B",
           password_hash := some (.phc "salt" "right"), role := .user,
           created_at := 0, updated_at := 0 }]
        [] ⟨"b@x", "wrong"⟩ 2 "r2" 9 false).fst :=
  C9_uniform_login_failure (fun s => s)
    { listen_addr := "a", jwt_secret := "s", issuer := "i", token_ttl_seconds := 300,
      default_admin_email := none, default_admin_password := none }
    [{ id := 4, organisation_id := none, email := "b@x", name := "B",
       password_hash := some (.phc "salt" "right"), role := .user,
       created_at := 0, updated_at := 0 }]
    [] ⟨"a@x", "pw"⟩ ⟨"b@x", "wrong"⟩
    { id := 4, organisation_id := none, email := "b@x", name := "B",
      password_hash := some (.phc "salt" "right"), role := .user,
      created_at := 0, updated_at := 0 }
    1 2 "r1" "r2" 8 9 false false
    (by decide) (by decide)
    (Or.inr ⟨.phc "salt" "right", rfl, by decide⟩)

/-- C8: a refresh call presenting a token whose hash is stored but
whose expiry is strictly before now answers 401 expired, the store
after the call is the store with that row deleted, no tokens are
issued, and the hash no longer resolves to any row (given the
store-wide hash uniqueness invariant). -/
theorem C8_expired_refresh_deletes_row (hrt : String → String) (config : AuthConfig)
    (users : UserDb) (store : TokenStore) (tok fresh : String)
    (info : RefreshTokenRow) (now : Nat)
    (hfind : storeFindByHash store (hrt tok) = some info)
    (hexp : info.expires_at < now)
    (huniq : ∀ r ∈ store, r.token_hash = hrt tok → r.id = info.id) :
    (refresh hrt config users store ⟨tok⟩ now fresh).fst =
      .failure 401 ⟨"expired_token", "Refresh token has expired"⟩ ∧
    (refresh hrt config users store ⟨tok⟩ now fresh).snd = storeDelete store info.id ∧
    storeFindByHash (refresh hrt config users store ⟨tok⟩ now fresh).snd (hrt tok) = none := by
  have hsnd : (refresh hrt config users store ⟨tok⟩ now fresh).snd =
      storeDelete store info.id := by
    simp [refresh, hfind, hexp]
  refine ⟨by simp [refresh, hfind, hexp], hsnd, ?_⟩
  rw [hsnd]
  simp only [storeFindByHash, storeDelete, List.find?_eq_none]
  intro r hr
  rw [List.mem_filter] at hr
  obtain ⟨hrs, hpred⟩ := hr
  rw [Bool.not_eq_true', beq_eq_false_iff_ne] at hpred
  intro hbeq
  rw [beq_iff_eq] at hbeq
  exact hpred (huniq r hrs hbeq)

/-- Witness for C8 at a one-row store holding an expired token. -/
theorem C8_expired_refresh_deletes_row_witness :
    (refresh (fun s => s)
        { listen_addr := "a", jwt_secret := "s", issuer := "i", token_ttl_seconds := 300,
          default_admin_email := none, default_admin_password := none }
        [] [{ id := 1, user_id := 5, organisation_id := none, token_hash := "t",
              expires_at := 10 }] ⟨"t"⟩ 20 "fresh").fst =
      .failure 401 ⟨"expired_token", "Refresh token has expired"⟩ ∧
    (refresh (fun s => s)
        { listen_addr := "a", jwt_secret := "s", issuer := "i", token_ttl_seconds := 300,
          default_admin_email := none, default_admin_password := none }
        [] [{ id := 1, user_id := 5, organisation_id := none, token_hash := "t",
              expires_at := 10 }] ⟨"t"⟩ 20 "fresh").snd =
      storeDelete [{ id := 1, user_id := 5, organisation_id := none, token_hash := "t",
                     expires_at := 10 }] 1 ∧
    storeFindByHash
        (refresh (fun s => s)
          { listen_addr := "a", jwt_secret := "s", issuer := "i", token_ttl_seconds := 300,
            default_admin_email := none, default_admin_password := none }
          [] [{ id := 1, user_id := 5, organisation_id := none, token_hash := "t",
                expires_at := 10 }] ⟨"t"⟩ 20 "fresh").snd "t" = none :=
  C8_expired_refresh_deletes_row (fun s => s)
    { listen_addr := "a", jwt_secret := "s", issuer := "i", token_ttl_seconds := 300,
      default_admin_email := none, default_admin_password := none }
    [] [{ id := 1, user_id := 5, organisation_id := none, token_hash := "t",
          expires_at := 10 }] "t" "fresh"
    { id := 1, user_id := 5, organisation_id := none, token_hash := "t", expires_at := 10 }
    20 (by decide) (by decide) (by decide)

/-- C10: when the refresh-token INSERT fails during a successful real
login or a successful register, the handler still answers success with
the freshly generated refresh token in the body (the contract error is
bound to an underscore and discarded), the store is left unchanged, and
the returned refresh token is rejected Unauthorized by every later
refresh call because its hash was never persisted. -/
theorem C10_create_failure_discarded (hrt : String → String) (config : AuthConfig)
    (users : UserDb) (store : TokenStore) (p : LoginRequest) (rp : RegisterRequest)
    (u : UserWithPassword) (h : PasswordHashInput)
    (now now2 : Nat) (fresh fresh2 salt : String) (rid uid : Uuid)
    (hfind : find_by_email users p.email = some u)
    (hhash : u.password_hash = some h)
    (hverif : verify_password p.password h = .ok true)
    (hreal : u.id ≠ Uuid.nil)
    (hfresh : ∀ r ∈ store, r.token_hash ≠ hrt fresh)
    (hnewmail : ∀ v ∈ users, v.email ≠ rp.email) :
    login hrt config users store p now fresh rid true =
      (.success 200
        { access_token := generate_access_token u config now, refresh_token := fresh,
          token_type := "Bearer", expires_in := config.token_ttl_seconds,
          user := AuthUserInfo.ofUser u }, store) ∧
    register hrt config users store rp now salt uid fresh rid true =
      (.success 201
        { access_token := generate_access_token
            { id := uid, organisation_id := none, email := rp.email, name := rp.name,
              password_hash := some (.phc salt rp.password), role := .user,
              created_at := now, updated_at := now } config now,
          refresh_token := fresh, token_type := "Bearer",
          expires_in := config.token_ttl_seconds,
          user := { id := uid, email := rp.email, name := rp.name } },
        users ++ [{ id := uid, organisation_id := none, email := rp.email, name := rp.name,
                    password_hash := some (.phc salt rp.password), role := .user,
                    created_at := now, updated_at := now }], store) ∧
    (refresh hrt config users store ⟨fresh⟩ now2 fresh2).fst =
      .failure 401 ⟨"invalid_token", "Invalid or expired refresh token"⟩ := by
  have hfind' : users.find? (fun v => v.email == p.email) = some u := hfind
  have hmem : u ∈ users := List.mem_of_find?_eq_some hfind'
  have hcount : userCount users ≠ 0 := by
    intro h0
    rw [userCount, List.length_eq_zero] at h0
    subst h0
    exact absurd hmem (List.not_mem_nil u)
  refine ⟨?_, ?_, ?_⟩
  · simp [login, hcount, hfind, hhash, hverif, hreal]
  · have hany : users.any (fun v => v.email == rp.email) = false := by
      rw [List.any_eq_false]
      intro v hv hc
      rw [beq_iff_eq] at hc
      exact hnewmail v hv hc
    simp [register, userCreate, hany, hash_password, AuthUserInfo.ofUser]
  · have hnone : storeFindByHash store (hrt fresh) = none := by
      simp only [storeFindByHash, List.find?_eq_none]
      intro r hr hc
      rw [beq_iff_eq] at hc
      exact hfresh r hr hc
    simp [refresh, hnone]

/-- Witness for C10: one real user, an empty token store and a failing
INSERT; both login and register answer success carrying the fresh
refresh token while the store stays empty, and refreshing with that
token is rejected. -/
theorem C10_create_failure_discarded_witness :
    login (fun s => s)
        { listen_addr := "a", jwt_secret := "s", issuer := "i", token_ttl_seconds := 300,
          default_admin_email := none, default_admin_password := none }
        [{ id := 4, organisation_id := none, email := "a@x", name := "A",
           password_hash := some (.phc "sa" "pw"), role := .user,
           created_at := 0, updated_at := 0 }]
        [] ⟨"a@x", "pw"⟩ 1 "rt" 8 true =
      (.success 200
        { access_token := generate_access_token
            { id := 4, organisation_id := none, email := "a@x", name := "A",
              password_hash := some (.phc "sa" "pw"), role := .user,
              created_at := 0, updated_at := 0 }
            { listen_addr := "a", jwt_secret := "s", issuer := "i", token_ttl_seconds := 300,
              default_admin_email := none, default_admin_password := none } 1,
          refresh_token := "rt", token_type := "Bearer", expires_in := 300,
          user := AuthUserInfo.ofUser
            { id := 4, organisation_id := none, email := "a@x", name := "A",
              password_hash := some (.phc "sa" "pw"), role := .user,
              created_at := 0, updated_at := 0 } }, []) ∧
    register (fun s => s)
        { listen_addr := "a", jwt_secret := "s", issuer := "i", token_ttl_seconds := 300,
          default_admin_email := none, default_admin_password := none }
        [{ id := 4, organisation_id := none, email := "a@x", name := "A",
           password_hash := some (.phc "sa" "pw"), role := .user,
           created_at := 0, updated_at := 0 }]
        [] ⟨"b@x", "B", "pw2"⟩ 1 "sb" 9 "rt" 8 true =
      (.success 201
        { access_token := generate_access_token
            { id := 9, organisation_id := none, email := "b@x", name := "B",
              password_hash := some (.phc "sb" "pw2"), role := .user,
              created_at := 1, updated_at := 1 }
            { listen_addr := "a", jwt_secret := "s", issuer := "i", token_ttl_seconds := 300,
              default_admin_email := none, default_admin_password := none } 1,
          refresh_token := "rt", token_type := "Bearer", expires_in := 300,
          user := { id := 9, email := "b@x", name := "B" } },
        [{ id := 4, organisation_id := none, email := "a@x", name := "A",
           password_hash := some (.phc "sa" "pw"), role := .user,
           created_at := 0, updated_at := 0 }] ++
        [{ id := 9, organisation_id := none, email := "b@x", name := "B",
           password_hash := some (.phc "sb" "pw2"), role := .user,
           created_at := 1, updated_at := 1 }], []) ∧
    (refresh (fun s => s)
        { listen_addr := "a", jwt_secret := "s", issuer := "i", token_ttl_seconds := 300,
          default_admin_email := none, default_admin_password := none }
        [{ id := 4, organisation_id := none, email := "a@x", name := "A",
           password_hash := some (.phc "sa" "pw"), role := .user,
           created_at := 0, updated_at := 0 }]
        [] ⟨"rt"⟩ 2 "rt2").fst =
      .failure 401 ⟨"invalid_token", "Invalid or expired refresh token"⟩ :=
  C10_create_failure_discarded (fun s => s)
    { listen_addr := "a", jwt_secret := "s", issuer := "i", token_ttl_seconds := 300,
      default_admin_email := none, default_admin_password := none }
    [{ id := 4, organisation_id := none, email := "a@x", name := "A",
       password_hash := some (.phc "sa" "pw"), role := .user,
       created_at := 0, updated_at := 0 }]
    [] ⟨"a@x", "pw"⟩ ⟨"b@x", "B", "pw2"⟩
    { id := 4, organisation_id := none, email := "a@x", name := "A",
      password_hash := some (.phc "sa" "pw"), role := .user,
      created_at := 0, updated_at := 0 }
    (.phc "sa" "pw") 1 2 "rt" "rt2" "sb" 8 9
    (by decide) (by decide) (by decide) (by decide)
    (by intro r hr; exact absurd hr (List.not_mem_nil r))
    (by decide)

/-- After rotating a row in place, the new hash resolves to the updated
row, provided the row is in the store, the row id determines the row,
and no stored row already carries the new hash. -/
theorem find?_after_update (store : TokenStore) (row : RefreshTokenRow)
    (newHash : String) (newExp : Nat)
    (hmem : row ∈ store)
    (hid : ∀ r ∈ store, r.id = row.id → r = row)
    (hfresh : ∀ r ∈ store, r.token_hash ≠ newHash) :
    (storeUpdate store row.id newHash newExp).find? (fun r => r.token_hash == newHash)
      = some { row with token_hash := newHash, expires_at := newExp } := by
  induction store with
  | nil => exact absurd hmem (List.not_mem_nil row)
  | cons a as ih =>
      by_cases hc : a.id = row.id
      · have ha : a = row := hid a (List.mem_cons_self a as) hc
        subst ha
        simp [storeUpdate]
      · have ha : a ≠ row := fun hco => hc (by rw [hco])
        have hmem' : row ∈ as := by
          cases hmem with
          | head => exact absurd rfl ha
          | tail _ htl => exact htl
        have step : storeUpdate (a :: as) row.id newHash newExp =
            a :: storeUpdate as row.id newHash newExp := by
          simp [storeUpdate, hc]
        rw [step]
        have hpa : (a.token_hash == newHash) = false :=
          beq_eq_false_iff_ne.mpr (hfresh a (List.mem_cons_self a as))
        rw [List.find?_cons, hpa]
        exact ih hmem' (fun r hr => hid r (List.mem_cons_of_mem a hr))
          (fun r hr => hfresh r (List.mem_cons_of_mem a hr))

/-- C1: a successful refresh of oldToken rotates the found row in
place: it answers 200 with the fresh token newToken, the store
afterwards is the in-place update of the same row (so the row id set is
unchanged, no new row is created, and every row with that id carries
the new hash), the old hash resolves to nothing so a later
refresh(oldToken) is rejected 401, and a later refresh(newToken)
succeeds. The hypotheses encode the store invariants (hash unique
across the store, id determines the row) and the freshness of the
rotated-in token (its hash is not yet stored and differs from the old
hash). -/
theorem C1_refresh_rotation (hrt : String → String) (config : AuthConfig)
    (users : UserDb) (store : TokenStore) (oldT newT newT2 : String)
    (row : RefreshTokenRow) (user : UserWithPassword) (now now2 : Nat)
    (hfind : storeFindByHash store (hrt oldT) = some row)
    (hexp : ¬ row.expires_at < now)
    (huser : find_by_id users row.user_id = some user)
    (hfresh : ∀ r ∈ store, r.token_hash ≠ hrt newT)
    (hdistinct : hrt oldT ≠ hrt newT)
    (huniq : ∀ r ∈ store, r.token_hash = hrt oldT → r.id = row.id)
    (hid : ∀ r ∈ store, r.id = row.id → r = row)
    (hexp2 : ¬ now + refreshTtlSeconds < now2) :
    refresh hrt config users store ⟨oldT⟩ now newT =
      (.success 200
        { access_token := generate_access_token user config now, refresh_token := newT,
          token_type := "Bearer", expires_in := config.token_ttl_seconds,
          user := AuthUserInfo.ofUser user },
        storeUpdate store row.id (hrt newT) (now + refreshTtlSeconds)) ∧
    (∀ r ∈ storeUpdate store row.id (hrt newT) (now + refreshTtlSeconds),
        r.id = row.id → r.token_hash = hrt newT) ∧
    storeFindByHash (storeUpdate store row.id (hrt newT) (now + refreshTtlSeconds))
        (hrt oldT) = none ∧
    (refresh hrt config users
        (storeUpdate store row.id (hrt newT) (now + refreshTtlSeconds))
        ⟨oldT⟩ now2 newT2).fst =
      .failure 401 ⟨"invalid_token", "Invalid or expired refresh token"⟩ ∧
    (refresh hrt config users
        (storeUpdate store row.id (hrt newT) (now + refreshTtlSeconds))
        ⟨newT⟩ now2 newT2).fst =
      .success 200
        { access_token := generate_access_token user config now2, refresh_token := newT2,
          token_type := "Bearer", expires_in := config.token_ttl_seconds,
          user := AuthUserInfo.ofUser user } ∧
    (storeUpdate store row.id (hrt newT) (now + refreshTtlSeconds)).map (fun r => r.id) =
      store.map (fun r => r.id) := by
  have hfind' : store.find? (fun r => r.token_hash == hrt oldT) = some row := hfind
  have hmem : row ∈ store := List.mem_of_find?_eq_some hfind'
  have hGone : storeFindByHash (storeUpdate store row.id (hrt newT) (now + refreshTtlSeconds))
      (hrt oldT) = none := by
    simp only [storeFindByHash, storeUpdate, List.find?_eq_none]
    intro x hx
    rw [List.mem_map] at hx
    obtain ⟨r, hrs, rfl⟩ := hx
    by_cases hc : r.id = row.id
    · simp only [if_pos hc]
      intro hbeq
      rw [beq_iff_eq] at hbeq
      exact hdistinct hbeq.symm
    · simp only [if_neg hc]
      intro hbeq
      rw [beq_iff_eq] at hbeq
      exact hc (huniq r hrs hbeq)
  have hNew : storeFindByHash (storeUpdate store row.id (hrt newT) (now + refreshTtlSeconds))
      (hrt newT) =
      some { row with token_hash := hrt newT, expires_at := now + refreshTtlSeconds } :=
    find?_after_update store row (hrt newT) (now + refreshTtlSeconds) hmem hid hfresh
  refine ⟨?_, ?_, hGone, ?_, ?_, ?_⟩
  · simp [refresh, hfind, hexp, huser]
  · intro r hr hrid
    rw [storeUpdate, List.mem_map] at hr
    obtain ⟨x, hxs, rfl⟩ := hr
    by_cases hc : x.id = row.id
    · simp [hc]
    · rw [if_neg hc] at hrid ⊢
      exact absurd hrid hc
  · simp [refresh, hGone]
  · simp [refresh, hNew, hexp2, huser]
  · rw [storeUpdate, List.map_map]
    apply List.map_congr_left
    intro r hr
    by_cases hc : r.id = row.id <;> simp [hc]

/-- Witness for C1 at a one-row store and a one-user directory. -/
theorem C1_refresh_rotation_witness :
    refresh (fun s => s)
        { listen_addr := "a", jwt_secret := "s", issuer := "i", token_ttl_seconds := 300,
          default_admin_email := none, default_admin_password := none }
        [{ id := 5, organisation_id := none, email := "e@x", name := "E",
           password_hash := none, role := .user, created_at := 0, updated_at := 0 }]
        [{ id := 1, user_id := 5, organisation_id := none, token_hash := "a",
           expires_at := 100 }] ⟨"a"⟩ 50 "b" =
      (.success 200
        { access_token := generate_access_token
            { id := 5, organisation_id := none, email := "e@x", name := "E",
              password_hash := none, role := .user, created_at := 0, updated_at := 0 }
            { listen_addr := "a", jwt_secret := "s", issuer := "i", token_ttl_seconds := 300,
              default_admin_email := none, default_admin_password := none } 50,
          refresh_token := "b", token_type := "Bearer", expires_in := 300,
          user := AuthUserInfo.ofUser
            { id := 5, organisation_id := none, email := "e@x", name := "E",
              password_hash := none, role := .user, created_at := 0, updated_at := 0 } },
        storeUpdate [{ id := 1, user_id := 5, organisation_id := none, token_hash := "a",
                       expires_at := 100 }] 1 "b" (50 + refreshTtlSeconds)) ∧
    (∀ r ∈ storeUpdate [{ id := 1, user_id := 5, organisation_id := none, token_hash := "a",
                          expires_at := 100 }] 1 "b" (50 + refreshTtlSeconds),
        r.id = 1 → r.token_hash = "b") ∧
    storeFindByHash
        (storeUpdate [{ id := 1, user_id := 5, organisation_id := none, token_hash := "a",
                        expires_at := 100 }] 1 "b" (50 + refreshTtlSeconds)) "a" = none ∧
    (refresh (fun s => s)
        { listen_addr := "a", jwt_secret := "s", issuer := "i", token_ttl_seconds := 300,
          default_admin_email := none, default_admin_password := none }
        [{ id := 5, organisation_id := none, email := "e@x", name := "E",
           password_hash := none, role := .user, created_at := 0, updated_at := 0 }]
        (storeUpdate [{ id := 1, user_id := 5, organisation_id := none, token_hash := "a",
                        expires_at := 100 }] 1 "b" (50 + refreshTtlSeconds))
        ⟨"a"⟩ 60 "c").fst =
      .failure 401 ⟨"invalid_token", "Invalid or expired refresh token"⟩ ∧
    (refresh (fun s => s)
        { listen_addr := "a", jwt_secret := "s", issuer := "i", token_ttl_seconds := 300,
          default_admin_email := none, default_admin_password := none }
        [{ id := 5, organisation_id := none, email := "e@x", name := "E",
           password_hash := none, role := .user, created_at := 0, updated_at := 0 }]
        (storeUpdate [{ id := 1, user_id := 5, organisation_id := none, token_hash := "a",
                        expires_at := 100 }] 1 "b" (50 + refreshTtlSeconds))
        ⟨"b"⟩ 60 "c").fst =
      .success 200
        { access_token := generate_access_token
            { id := 5, organisation_id := none, email := "e@x", name := "E",
              password_hash := none, role := .user, created_at := 0, updated_at := 0 }
            { listen_addr := "a", jwt_secret := "s", issuer := "i", token_ttl_seconds := 300,
              default_admin_email := none, default_admin_password := none } 60,
          refresh_token := "c", token_type := "Bearer", expires_in := 300,
          user := AuthUserInfo.ofUser
            { id := 5, organisation_id := none, email := "e@x", name := "E",
              password_hash := none, role := .user, created_at := 0, updated_at := 0 } } ∧
    (storeUpdate [{ id := 1, user_id := 5, organisation_id := none, token_hash := "a",
                    expires_at := 100 }] 1 "b" (50 + refreshTtlSeconds)).map (fun r => r.id) =
      ([{ id := 1, user_id := 5, organisation_id := none, token_hash := "a",
          expires_at := 100 }] : TokenStore).map (fun r => r.id) :=
  C1_refresh_rotation (fun s => s)
    { listen_addr := "a", jwt_secret := "s", issuer := "i", token_ttl_seconds := 300,
      default_admin_email := none, default_admin_password := none }
    [{ id := 5, organisation_id := none, email := "e@x", name := "E",
       password_hash := none, role := .user, created_at := 0, updated_at := 0 }]
    [{ id := 1, user_id := 5, organisation_id := none, token_hash := "a",
       expires_at := 100 }] "a" "b" "c"
    { id := 1, user_id := 5, organisation_id := none, token_hash := "a", expires_at := 100 }
    { id := 5, organisation_id := none, email := "e@x", name := "E",
      password_hash := none, role := .user, created_at := 0, updated_at := 0 }
    50 60 (by decide) (by decide) (by decide) (by decide) (by decide) (by decide)
    (by decide) (by decide)

end AGW
